import Mathlib

/-!
Verification development for the image-storage web client.

The application is a thin client over an external backend: a blob store
(object storage bucket holding raw files) and a metadata store (document
collection holding Picture Records).  We embed the backend state as explicit
data, model the nondeterminism of each backend round-trip (network failure,
permission error, ...) with an explicit Boolean failure flag per call, and
translate each facade operation and each UI effect from the source into a
pure state-transition function.  Fresh identifiers generated by the backend
("unique()" / ID.unique()) are passed in as explicit parameters.
-/

/-- A document of the metadata collection: one Picture Record.
`documentId` is the backend-assigned document id; the remaining fields mirror
the attributes written by `updatePictureDatabase`.  Timestamps are epoch
milliseconds (a `Date` / its ISO serialisation in the source). -/
structure Doc where
  documentId : String
  imageId : String
  imageName : String
  createdAt : Nat
  imageUrl : String
deriving DecidableEq, Repr

/-- A file of the blob store: the backend-assigned file id and the original
file name it was created from. -/
structure BlobFile where
  id : String
  name : String
deriving DecidableEq, Repr

/-- The externally stored state the facade operates on: the metadata
collection (in backend-default order) and the blob-store bucket. -/
structure BackendState where
  docs : List Doc
  blobs : List BlobFile
deriving DecidableEq, Repr

/-- Semantics of the backend query `Query.startsWith("imageName", q)`:
`startsWithQ q s` holds when `q` is a prefix of `s`. -/
def startsWithQ (q s : String) : Bool :=
  q.data.isPrefixOf s.data

/-- `fetchPictures` (facade `search`): on a JS-truthy (nonempty) query, lists
the documents whose `imageName` starts with the query; on the empty query,
lists all documents; any error thrown by the backend call is caught and the
function returns `undefined` (here `none`).  `fail` models the backend call
throwing. -/
def fetchPictures (st : BackendState) (query : String) (fail : Bool) :
    Option (List Doc) :=
  if fail then none
  else if query = "" then some st.docs
  else some (st.docs.filter (fun d => startsWithQ query d.imageName))

/-- The empty string is a prefix of every string. -/
theorem startsWithQ_empty (s : String) : startsWithQ "" s = true := by
  simp [startsWithQ]

/-- Filtering by the empty-query prefix keeps every document. -/
theorem filter_startsWithQ_empty (l : List Doc) :
    l.filter (fun d => startsWithQ "" d.imageName) = l := by
  induction l with
  | nil => rfl
  | cons d rest ih => simp [List.filter, startsWithQ_empty, ih]

/-- `uploadPicture` (facade `upload`): first lists the bucket's files whose
`name` equals the file's name (`Query.equal`); if the total is positive the
function returns `null` without creating anything; otherwise it creates the
blob under a backend-generated unique id (`freshId`) and returns that id.
Any thrown error is caught and `null` is returned.  `failList` models the
existence-check call throwing, `failCreate` the create call throwing (a
failed create stores nothing). -/
def uploadPicture (st : BackendState) (fileName : String) (freshId : String)
    (failList failCreate : Bool) : BackendState × Option String :=
  if failList then (st, none)
  else if (st.blobs.filter (fun b => b.name == fileName)).length > 0 then
    (st, none)
  else if failCreate then (st, none)
  else ({ st with blobs := st.blobs ++ [⟨freshId, fileName⟩] }, some freshId)

/-- Semantics of `storage.getFileView(BUCKET_ID, imageId)`: the retrieval
URL the backend derives from the file id. -/
def fileViewUrl (imageId : String) : String :=
  "files/" ++ imageId ++ "/view"

/-- The body of `updatePictureDatabase` before its catch-all handler, as an
exception-or-state outcome.  Arguments arriving as JS `null`/`undefined` are
`none`; the loose `== null` presence check passes any `some` value,
including the empty string.  A `createdAt` strictly in the future (its time
exceeds `now = Date.now()`) aborts with no effect; otherwise one document is
written with a fresh document id and the `imageUrl` resolved from `imageId`.
`failCreate` models `createDocument` throwing. -/
def updatePictureDatabaseBody (st : BackendState)
    (imageId imageName : Option String) (createdAt : Option Nat) (now : Nat)
    (newDocId : String) (failCreate : Bool) : Except String BackendState :=
  match imageId, imageName, createdAt with
  | some iid, some iname, some cAt =>
    if cAt > now then .ok st
    else if failCreate then .error "Error updating picture database"
    else .ok { st with docs := st.docs ++ [⟨newDocId, iid, iname, cAt, fileViewUrl iid⟩] }
  | _, _, _ => .ok st

/-- `updatePictureDatabase` (facade `persist`): the body wrapped in the
source's try/catch — any thrown error is logged and swallowed, leaving the
backend unchanged, so the call always resolves normally. -/
def updatePictureDatabaseE (st : BackendState)
    (imageId imageName : Option String) (createdAt : Option Nat) (now : Nat)
    (newDocId : String) (failCreate : Bool) : Except String BackendState :=
  match updatePictureDatabaseBody st imageId imageName createdAt now newDocId failCreate with
  | .ok st' => .ok st'
  | .error _ => .ok st

/-- The backend state after `updatePictureDatabase` resolves. -/
def updatePictureDatabase (st : BackendState)
    (imageId imageName : Option String) (createdAt : Option Nat) (now : Nat)
    (newDocId : String) (failCreate : Bool) : BackendState :=
  match updatePictureDatabaseE st imageId imageName createdAt now newDocId failCreate with
  | .ok st' => st'
  | .error _ => st

/-- JS truthiness of a nullable string: `!x` is true exactly when the value
is `null`/`undefined` or the empty string. -/
def jsFalsy (s : Option String) : Bool :=
  match s with
  | none => true
  | some str => str == ""

/-- `deletePicture` (facade `remove`): aborts with no effect when either
argument is JS-falsy; otherwise deletes the metadata document first, then
the blob.  `failDelDoc` models `deleteDocument` throwing (the document
survives and the blob delete is never reached); `failDelFile` models
`deleteFile` throwing after the document was deleted (the blob is
orphaned).  Errors are caught and logged, never propagated. -/
def deletePicture (st : BackendState) (imageId documentId : Option String)
    (failDelDoc failDelFile : Bool) : BackendState :=
  if jsFalsy imageId || jsFalsy documentId then st
  else if failDelDoc then st
  else
    let st1 : BackendState :=
      { st with docs := st.docs.filter (fun d => d.documentId != documentId.getD "") }
    if failDelFile then st1
    else { st1 with blobs := st1.blobs.filter (fun b => b.id != imageId.getD "") }

/-- The `Home` component's state variables. -/
structure HomeState where
  totalImageNumber : Nat
  searchImage : String
  debouncedSearchTerm : String
  loading : Bool
  refreshFetch : Bool
  imageList : List Doc
deriving DecidableEq, Repr

/-- Entry into the fetch transition: `getAllImages` begins with
`setLoading(true)`. -/
def fetchEffectLoadingPhase (h : HomeState) : HomeState :=
  { h with loading := true }

/-- The body of `getAllImages` after the loading flag is raised: fetch by
the debounced search term; if the response is `undefined` or empty, the
image list becomes empty; otherwise it becomes the fetched sequence.  The
surrounding try/catch swallows any error (and `fetchPictures` already
catches its own), so the body always resolves. -/
def getAllImagesBody (h : HomeState) (backend : BackendState)
    (fetchFail : Bool) : HomeState :=
  match fetchPictures backend h.debouncedSearchTerm fetchFail with
  | none => { h with imageList := [] }
  | some response =>
    if response.length = 0 then { h with imageList := [] }
    else { h with imageList := response }

/-- The whole fetch effect of `Home`: `getAllImages(debouncedSearchTerm)`
followed by `.then(() => setLoading(false))`.  Because `getAllImages`
resolves on every path, the continuation resetting the loading flag always
runs. -/
def fetchEffectStep (h : HomeState) (backend : BackendState)
    (fetchFail : Bool) : HomeState :=
  { getAllImagesBody (fetchEffectLoadingPhase h) backend fetchFail with
      loading := false }

/-- The `UploadPicture` component's state variables: the armed trigger and
the selected file, identified by its name (`none` = no file selected). -/
structure UploadControlState where
  toUpload : Bool
  image : Option String
deriving DecidableEq, Repr

/-- The application state `handleUpload` acts on: the backend plus the
displayed total counter owned by `Home`. -/
structure AppState where
  backend : BackendState
  totalImageNumber : Nat
deriving DecidableEq, Repr

/-- `handleUpload`: with no image selected, returns with no effect.
Otherwise uploads the blob; a `null` upload result aborts; on success it
persists the metadata (`createdAt` is the `Date` captured when the persist
call is made, validated against the clock read `nowPersist` inside it) and
then increments the displayed counter by one.  The try/catch swallows any
error, so the call always resolves. -/
def handleUpload (s : AppState) (image : Option String)
    (freshFileId newDocId : String) (nowUpload nowPersist : Nat)
    (failListFiles failCreateFile failCreateDoc : Bool) : AppState :=
  match image with
  | none => s
  | some fname =>
    match uploadPicture s.backend fname freshFileId failListFiles failCreateFile with
    | (b1, none) => { s with backend := b1 }
    | (b1, some iid) =>
      let b2 := updatePictureDatabase b1 (some iid) (some fname)
        (some nowUpload) nowPersist newDocId failCreateDoc
      { backend := b2, totalImageNumber := s.totalImageNumber + 1 }

/-- The upload effect of `UploadPicture`: when the trigger is armed it runs
`handleUpload()` and then — `handleUpload` always resolves — the `.then`
clears the trigger and the `.finally` clears the file reference, on every
outcome. -/
def uploadEffectStep (u : UploadControlState) (s : AppState)
    (freshFileId newDocId : String) (nowUpload nowPersist : Nat)
    (failListFiles failCreateFile failCreateDoc : Bool) :
    UploadControlState × AppState :=
  if u.toUpload then
    (⟨false, none⟩,
      handleUpload s u.image freshFileId newDocId nowUpload nowPersist
        failListFiles failCreateFile failCreateDoc)
  else (u, s)

/-- Debounce semantics of the `Home` effect on `searchImage`: each keystroke
`(t, v)` sets the raw query to `v` and schedules a commit of `v` at
`t + 1000`, cancelling the previously scheduled commit (the effect cleanup
runs `clearTimeout`).  Given the time-ordered keystroke list, a scheduled
commit survives exactly when no further keystroke arrives strictly before
its deadline; `debounceCommits` returns the values committed into
`debouncedSearchTerm`, in order. -/
def debounceCommits : List (Nat × String) → List String
  | [] => []
  | [(_, v)] => [v]
  | (t1, v1) :: (t2, v2) :: rest =>
    if t2 < t1 + 1000 then debounceCommits ((t2, v2) :: rest)
    else v1 :: debounceCommits ((t2, v2) :: rest)

/-- The raw query after a keystroke sequence: each keystroke immediately
overwrites `searchImage` with its value. -/
def rawQueryAfter (init : String) (ks : List (Nat × String)) : String :=
  ks.foldl (fun _ k => k.2) init

/-- One rendered image card, carrying the props `Home` passes to
`ImageCard`; `key` is the React list key. -/
structure Card where
  key : String
  documentId : String
  id : String
  name : String
  imageUrl : String
  creationDate : Nat
deriving DecidableEq, Repr

/-- What the gallery section renders. -/
inductive GalleryView where
  | cards (cs : List Card) : GalleryView
  | placeholder : GalleryView
deriving DecidableEq, Repr

/-- The card `Home` renders for one record: `key={image.imageId}`,
`documentId`, `id={image.imageId}`, `name={image.imageName}`, the stored
`imageUrl` and the creation date. -/
def mkCard (image : Doc) : Card :=
  ⟨image.imageId, image.documentId, image.imageId, image.imageName,
    image.imageUrl, image.createdAt⟩

/-- The gallery render of `Home`: with a nonempty `imageList`, one card per
record keyed by that record's `imageId`; with an empty list, the single
placeholder image. -/
def renderGallery (imageList : List Doc) : GalleryView :=
  if imageList.length > 0 then .cards (imageList.map mkCard)
  else .placeholder

/-- Claim C1: for every search term `t`, a successful `fetchPictures t`
returns exactly the ordered subsequence of Picture Records whose `imageName`
starts with `t`; the empty term returns all records in backend-default
order; a failed call returns `undefined` (`none`), which is distinct from
the empty result sequence. -/
theorem fetchPictures_spec (st : BackendState) (t : String) :
    fetchPictures st t false
      = some (st.docs.filter (fun d => startsWithQ t d.imageName))
    ∧ fetchPictures st "" false = some st.docs
    ∧ (∀ q : String, fetchPictures st q true = none)
    ∧ (∀ q : String, fetchPictures st q true ≠ some ([] : List Doc)) := by
  refine ⟨?_, ?_, fun q => rfl, fun q => by simp [fetchPictures]⟩
  · by_cases ht : t = ""
    · subst ht
      simp [fetchPictures, filter_startsWithQ_empty]
    · simp [fetchPictures, ht]
  · simp [fetchPictures]

/-- Witness for C1 at a concrete store and term. -/
theorem fetchPictures_spec_witness :
    fetchPictures ⟨[⟨"d1", "i1", "cat.png", 5, "u1"⟩], []⟩ "ca" false
      = some [⟨"d1", "i1", "cat.png", 5, "u1"⟩] := by
  rw [(fetchPictures_spec ⟨[⟨"d1", "i1", "cat.png", 5, "u1"⟩], []⟩ "ca").1]
  decide

/-- Claim C2: when the file's name already matches an existing blob,
`uploadPicture` returns `null` and creates nothing, whatever the backend
failure flags; moreover the surrounding `handleUpload` then leaves the whole
application state — blobs, metadata records, displayed total — unchanged.
With a unique name and successful calls the blob is stored under the
generated id, which is returned; every failing call path returns `null`. -/
theorem uploadPicture_spec (st : BackendState) (fname freshId newDocId : String)
    (s : AppState) (n1 n2 : Nat) :
    ((st.blobs.filter (fun b => b.name == fname)).length > 0 →
      (∀ f1 f2 : Bool, uploadPicture st fname freshId f1 f2 = (st, none))
      ∧ (s.backend = st → ∀ f1 f2 f3 : Bool,
          handleUpload s (some fname) freshId newDocId n1 n2 f1 f2 f3 = s))
    ∧ ((st.blobs.filter (fun b => b.name == fname)).length = 0 →
        uploadPicture st fname freshId false false
          = ({ st with blobs := st.blobs ++ [⟨freshId, fname⟩] }, some freshId))
    ∧ (∀ f2 : Bool, uploadPicture st fname freshId true f2 = (st, none))
    ∧ uploadPicture st fname freshId false true = (st, none) := by
  have hdupCase : (st.blobs.filter (fun b => b.name == fname)).length > 0 →
      ∀ f1 f2 : Bool, uploadPicture st fname freshId f1 f2 = (st, none) := by
    intro hdup f1 f2
    cases f1 <;> simp [uploadPicture, hdup]
  refine ⟨fun hdup => ⟨hdupCase hdup, fun hb f1 f2 f3 => ?_⟩,
    fun huniq => ?_, fun f2 => rfl, ?_⟩
  · subst hb
    simp [handleUpload, hdupCase hdup f1 f2]
  · simp [uploadPicture, huniq]
  · by_cases hdup : (st.blobs.filter (fun b => b.name == fname)).length > 0 <;>
      simp [uploadPicture, hdup]

/-- Witness for C2 at a concrete store holding a blob of the same name. -/
theorem uploadPicture_spec_witness :
    uploadPicture ⟨[], [⟨"id1", "cat.png"⟩]⟩ "cat.png" "id2" false false
      = (⟨[], [⟨"id1", "cat.png"⟩]⟩, none)
    ∧ handleUpload ⟨⟨[], [⟨"id1", "cat.png"⟩]⟩, 7⟩ (some "cat.png") "id2" "d2"
        3 4 false false false
      = ⟨⟨[], [⟨"id1", "cat.png"⟩]⟩, 7⟩ := by
  have h := uploadPicture_spec ⟨[], [⟨"id1", "cat.png"⟩]⟩ "cat.png" "id2" "d2"
    ⟨⟨[], [⟨"id1", "cat.png"⟩]⟩, 7⟩ 3 4
  exact ⟨(h.1 (by decide)).1 false false, (h.1 (by decide)).2 rfl false false false⟩

/-- Claim C3: `updatePictureDatabase` requires `imageId`, `imageName` and
`createdAt` to be present and `createdAt` not strictly greater than the
clock read `now`; on any validation failure it returns without creating a
record, whatever the backend flag; otherwise it writes exactly one Picture
Record with the generated `documentId` and an `imageUrl` resolved from
`imageId`. -/
theorem updatePictureDatabase_spec (st : BackendState)
    (imageId imageName : Option String) (createdAt : Option Nat)
    (now : Nat) (newDocId : String) (failCreate : Bool) :
    ((imageId = none ∨ imageName = none ∨ createdAt = none
        ∨ (∃ c, createdAt = some c ∧ c > now)) →
      updatePictureDatabase st imageId imageName createdAt now newDocId
        failCreate = st)
    ∧ (∀ iid iname c, imageId = some iid → imageName = some iname →
        createdAt = some c → c ≤ now →
        updatePictureDatabase st imageId imageName createdAt now newDocId false
          = { st with
                docs := st.docs ++ [⟨newDocId, iid, iname, c, fileViewUrl iid⟩] }) := by
  constructor
  · rintro (h | h | h | ⟨c, hc, hfut⟩)
    · subst h
      cases imageName <;> cases createdAt <;>
        simp [updatePictureDatabase, updatePictureDatabaseE,
          updatePictureDatabaseBody]
    · subst h
      cases imageId <;> cases createdAt <;>
        simp [updatePictureDatabase, updatePictureDatabaseE,
          updatePictureDatabaseBody]
    · subst h
      cases imageId <;> cases imageName <;>
        simp [updatePictureDatabase, updatePictureDatabaseE,
          updatePictureDatabaseBody]
    · subst hc
      cases imageId <;> cases imageName <;>
        simp [updatePictureDatabase, updatePictureDatabaseE,
          updatePictureDatabaseBody, hfut]
  · rintro iid iname c rfl rfl rfl hc
    simp [updatePictureDatabase, updatePictureDatabaseE,
      updatePictureDatabaseBody, Nat.not_lt.mpr hc]

/-- Witness for C3: a future timestamp is rejected; a past one is written. -/
theorem updatePictureDatabase_spec_witness :
    updatePictureDatabase ⟨[], []⟩ (some "i1") (some "cat.png") (some 10) 5
        "d1" false
      = ⟨[], []⟩
    ∧ updatePictureDatabase ⟨[], []⟩ (some "i1") (some "cat.png") (some 3) 5
        "d1" false
      = ⟨[⟨"d1", "i1", "cat.png", 3, fileViewUrl "i1"⟩], []⟩ := by
  constructor
  · exact (updatePictureDatabase_spec ⟨[], []⟩ (some "i1") (some "cat.png")
      (some 10) 5 "d1" false).1 (Or.inr (Or.inr (Or.inr ⟨10, rfl, by decide⟩)))
  · exact (updatePictureDatabase_spec ⟨[], []⟩ (some "i1") (some "cat.png")
      (some 3) 5 "d1" false).2 "i1" "cat.png" 3 rfl rfl rfl (by decide)

/-- Claim C4: every fetch transition raises the loading flag at its start,
sets the image list to the empty list when the fetch fails or returns an
empty result and to the fetched sequence otherwise, and — because every
error on the fetch path is caught before it can escape — ends with the
loading flag reset to false on every exit path, the failure path included. -/
theorem fetchEffect_spec (h : HomeState) (backend : BackendState)
    (fetchFail : Bool) :
    (fetchEffectLoadingPhase h).loading = true
    ∧ (fetchEffectStep h backend fetchFail).loading = false
    ∧ (fetchEffectStep h backend true).imageList = []
    ∧ (∀ l, fetchPictures backend h.debouncedSearchTerm fetchFail = some l →
        (l = [] → (fetchEffectStep h backend fetchFail).imageList = [])
        ∧ (l ≠ [] → (fetchEffectStep h backend fetchFail).imageList = l)) := by
  refine ⟨rfl, ?_, ?_, ?_⟩
  · simp only [fetchEffectStep]
  · simp [fetchEffectStep, getAllImagesBody, fetchEffectLoadingPhase,
      fetchPictures]
  · intro l hl
    have hterm : (fetchEffectLoadingPhase h).debouncedSearchTerm
        = h.debouncedSearchTerm := rfl
    constructor
    · rintro rfl
      simp [fetchEffectStep, getAllImagesBody, hterm, hl]
    · intro hne
      simp [fetchEffectStep, getAllImagesBody, hterm, hl,
        List.length_eq_zero, hne]

/-- Witness for C4 at a concrete controller state and store, on both the
failure path and a successful nonempty fetch. -/
theorem fetchEffect_spec_witness :
    (fetchEffectStep ⟨0, "c", "c", true, false, []⟩
        ⟨[⟨"d1", "i1", "cat.png", 5, "u1"⟩], []⟩ true).loading = false
    ∧ (fetchEffectStep ⟨0, "c", "c", true, false, []⟩
        ⟨[⟨"d1", "i1", "cat.png", 5, "u1"⟩], []⟩ true).imageList = []
    ∧ (fetchEffectStep ⟨0, "c", "c", true, false, []⟩
        ⟨[⟨"d1", "i1", "cat.png", 5, "u1"⟩], []⟩ false).imageList
      = [⟨"d1", "i1", "cat.png", 5, "u1"⟩] := by
  have h := fetchEffect_spec ⟨0, "c", "c", true, false, []⟩
    ⟨[⟨"d1", "i1", "cat.png", 5, "u1"⟩], []⟩ false
  refine ⟨(fetchEffect_spec ⟨0, "c", "c", true, false, []⟩
    ⟨[⟨"d1", "i1", "cat.png", 5, "u1"⟩], []⟩ true).2.1, h.2.2.1, ?_⟩
  exact (h.2.2.2 [⟨"d1", "i1", "cat.png", 5, "u1"⟩] (by decide)).2 (by decide)

/-- Claim C5: `deletePicture` returns with no effect when either identifier
is missing; with both identifiers present it deletes the metadata record
first and the blob second — a failed record deletion leaves everything
intact, and a failed blob deletion after a successful record deletion
leaves the blob orphaned with no rollback; the function is total, so no
error reaches the caller. -/
theorem deletePicture_spec (st : BackendState) (iid did : String)
    (hiid : iid ≠ "") (hdid : did ≠ "") :
    (∀ (x : Option String) (f1 f2 : Bool),
        deletePicture st none x f1 f2 = st
        ∧ deletePicture st x none f1 f2 = st)
    ∧ (∀ f2, deletePicture st (some iid) (some did) true f2 = st)
    ∧ deletePicture st (some iid) (some did) false true
        = { st with docs := st.docs.filter (fun d => d.documentId != did) }
    ∧ deletePicture st (some iid) (some did) false false
        = { docs := st.docs.filter (fun d => d.documentId != did),
            blobs := st.blobs.filter (fun b => b.id != iid) } := by
  have hfalsy : jsFalsy (some iid) = false ∧ jsFalsy (some did) = false := by
    constructor <;> simp [jsFalsy, hiid, hdid]
  refine ⟨fun x f1 f2 => ⟨rfl, ?_⟩, fun f2 => ?_, ?_, ?_⟩
  · simp [deletePicture, jsFalsy]
  · simp [deletePicture, hfalsy.1, hfalsy.2]
  · simp [deletePicture, hfalsy.1, hfalsy.2]
  · simp [deletePicture, hfalsy.1, hfalsy.2]

/-- Witness for C5: concrete store with one record and one blob — a missing
identifier aborts; a failed blob deletion orphans the blob; full success
removes both. -/
theorem deletePicture_spec_witness :
    deletePicture ⟨[⟨"d1", "i1", "cat.png", 5, "u1"⟩], [⟨"i1", "cat.png"⟩]⟩
        none (some "d1") false false
      = ⟨[⟨"d1", "i1", "cat.png", 5, "u1"⟩], [⟨"i1", "cat.png"⟩]⟩
    ∧ deletePicture ⟨[⟨"d1", "i1", "cat.png", 5, "u1"⟩], [⟨"i1", "cat.png"⟩]⟩
        (some "i1") (some "d1") false true
      = ⟨[], [⟨"i1", "cat.png"⟩]⟩
    ∧ deletePicture ⟨[⟨"d1", "i1", "cat.png", 5, "u1"⟩], [⟨"i1", "cat.png"⟩]⟩
        (some "i1") (some "d1") false false
      = ⟨[], []⟩ := by
  have h := deletePicture_spec
    ⟨[⟨"d1", "i1", "cat.png", 5, "u1"⟩], [⟨"i1", "cat.png"⟩]⟩ "i1" "d1"
    (by decide) (by decide)
  refine ⟨(h.1 (some "d1") false false).1, ?_, ?_⟩
  · rw [h.2.2.1]; decide
  · rw [h.2.2.2]; decide

/-- Claim C6: an armed upload trigger runs blob upload, then metadata
persist, then a counter increment of exactly one, and clears the trigger
and the file reference on every outcome; a valid selection with a unique
name yields exactly one new Picture Record, visible in a subsequent
unfiltered search, and a displayed total larger by exactly one. -/
theorem uploadControl_spec (u : UploadControlState) (s : AppState)
    (fname freshId newDocId : String) (n1 n2 : Nat)
    (hu : u.toUpload = true) (him : u.image = some fname)
    (hun : (s.backend.blobs.filter (fun b => b.name == fname)).length = 0)
    (hnow : n1 ≤ n2) :
    (∀ f1 f2 f3 : Bool,
      (uploadEffectStep u s freshId newDocId n1 n2 f1 f2 f3).1
        = ⟨false, none⟩)
    ∧ (uploadEffectStep u s freshId newDocId n1 n2 false false false).2
        = { backend :=
              { docs :=
                  s.backend.docs
                    ++ [⟨newDocId, freshId, fname, n1, fileViewUrl freshId⟩],
                blobs := s.backend.blobs ++ [⟨freshId, fname⟩] },
            totalImageNumber := s.totalImageNumber + 1 }
    ∧ fetchPictures
        (uploadEffectStep u s freshId newDocId n1 n2 false false false).2.backend
        "" false
      = some (s.backend.docs
          ++ [⟨newDocId, freshId, fname, n1, fileViewUrl freshId⟩]) := by
  have hup : uploadPicture s.backend fname freshId false false
      = ({ s.backend with blobs := s.backend.blobs ++ [⟨freshId, fname⟩] },
          some freshId) := by
    simp [uploadPicture, hun]
  have hdb : updatePictureDatabase
      { s.backend with blobs := s.backend.blobs ++ [⟨freshId, fname⟩] }
      (some freshId) (some fname) (some n1) n2 newDocId false
      = { docs := s.backend.docs
            ++ [⟨newDocId, freshId, fname, n1, fileViewUrl freshId⟩],
          blobs := s.backend.blobs ++ [⟨freshId, fname⟩] } := by
    simp [updatePictureDatabase, updatePictureDatabaseE,
      updatePictureDatabaseBody, Nat.not_lt.mpr hnow]
  have hstep : (uploadEffectStep u s freshId newDocId n1 n2 false false false).2
      = { backend :=
            { docs :=
                s.backend.docs
                  ++ [⟨newDocId, freshId, fname, n1, fileViewUrl freshId⟩],
              blobs := s.backend.blobs ++ [⟨freshId, fname⟩] },
          totalImageNumber := s.totalImageNumber + 1 } := by
    simp [uploadEffectStep, hu, him, handleUpload, hup, hdb]
  refine ⟨fun f1 f2 f3 => by simp [uploadEffectStep, hu], hstep, ?_⟩
  rw [hstep]
  simp [fetchPictures]

/-- Witness for C6: uploading `cat.png` into an empty store yields exactly
the one new record in an unfiltered search and a total of one, with the
trigger and file reference cleared. -/
theorem uploadControl_spec_witness :
    (uploadEffectStep ⟨true, some "cat.png"⟩ ⟨⟨[], []⟩, 0⟩ "i1" "d1" 3 4
        false false false).1 = ⟨false, none⟩
    ∧ (uploadEffectStep ⟨true, some "cat.png"⟩ ⟨⟨[], []⟩, 0⟩ "i1" "d1" 3 4
        false false false).2
      = ⟨⟨[⟨"d1", "i1", "cat.png", 3, fileViewUrl "i1"⟩], [⟨"i1", "cat.png"⟩]⟩, 1⟩
    ∧ fetchPictures
        (uploadEffectStep ⟨true, some "cat.png"⟩ ⟨⟨[], []⟩, 0⟩ "i1" "d1" 3 4
          false false false).2.backend "" false
      = some [⟨"d1", "i1", "cat.png", 3, fileViewUrl "i1"⟩] := by
  have h := uploadControl_spec ⟨true, some "cat.png"⟩ ⟨⟨[], []⟩, 0⟩
    "cat.png" "i1" "d1" 3 4 rfl rfl (by decide) (by decide)
  exact ⟨h.1 false false false, h.2.1, h.2.2⟩

/-- The raw query after a nonempty keystroke sequence is the last
keystroke's value: each keystroke overwrites the previous one. -/
theorem rawQueryAfter_last (init : String) :
    ∀ (ks : List (Nat × String)) (hne : ks ≠ []),
      rawQueryAfter init ks = (ks.getLast hne).2 := by
  intro ks
  induction ks generalizing init with
  | nil => intro hne; exact absurd rfl hne
  | cons k ks ih =>
    intro _
    cases ks with
    | nil => rfl
    | cons k2 rest =>
      have := ih k.2 (by simp)
      simpa [rawQueryAfter, List.getLast_cons] using this

/-- In a burst of keystrokes each strictly less than 1000 ms after the
previous one, every scheduled commit but the last is cancelled: exactly the
final value is committed. -/
theorem debounceCommits_burst :
    ∀ (ks : List (Nat × String)) (hne : ks ≠ []),
      List.Chain' (fun a b => b.1 < a.1 + 1000) ks →
      debounceCommits ks = [(ks.getLast hne).2] := by
  intro ks
  induction ks with
  | nil => intro hne; exact absurd rfl hne
  | cons k ks ih =>
    intro _ hch
    cases ks with
    | nil =>
      obtain ⟨t, v⟩ := k
      rfl
    | cons k2 rest =>
      obtain ⟨t1, v1⟩ := k
      obtain ⟨t2, v2⟩ := k2
      have h12 : t2 < t1 + 1000 := (List.chain'_cons.mp hch).1
      have htail := (List.chain'_cons.mp hch).2
      have ihh := ih (by simp) htail
      simpa [debounceCommits, h12, List.getLast_cons] using ihh

/-- Claim C7: every keystroke updates the raw query immediately (after the
burst it holds the last keystroke's value), and the 1-second inactivity
timer, reset on every keystroke, commits only once for a burst of
keystrokes each under 1 second apart: the single committed value — hence
the at most one fetch it triggers — is the final one. -/
theorem debounce_spec (init : String) (ks : List (Nat × String))
    (hne : ks ≠ [])
    (hburst : List.Chain' (fun a b => b.1 < a.1 + 1000) ks) :
    rawQueryAfter init ks = (ks.getLast hne).2
    ∧ debounceCommits ks = [(ks.getLast hne).2]
    ∧ (debounceCommits ks).length = 1 :=
  ⟨rawQueryAfter_last init ks hne, debounceCommits_burst ks hne hburst,
    by rw [debounceCommits_burst ks hne hburst]; rfl⟩

/-- Witness for C7: three keystrokes 400 and 500 ms apart commit only the
final value `cat`. -/
theorem debounce_spec_witness :
    rawQueryAfter "" [(0, "c"), (400, "ca"), (900, "cat")] = "cat"
    ∧ debounceCommits [(0, "c"), (400, "ca"), (900, "cat")] = ["cat"] := by
  have h := debounce_spec "" [(0, "c"), (400, "ca"), (900, "cat")]
    (by decide) (by norm_num [List.chain'_cons])
  exact ⟨h.1, h.2.1⟩

/-- Claim C8: the gallery is a pure function of the result sequence — a
nonempty sequence renders exactly one card per record, in order, each
keyed by its record's `imageId`, while the empty sequence renders the
single placeholder image. -/
theorem renderGallery_spec (l : List Doc) (hne : l ≠ []) :
    renderGallery [] = GalleryView.placeholder
    ∧ renderGallery l = .cards (l.map mkCard)
    ∧ (l.map mkCard).length = l.length
    ∧ (l.map mkCard).map Card.key = l.map Doc.imageId := by
  refine ⟨rfl, ?_, by simp, ?_⟩
  · have : l.length > 0 := List.length_pos.mpr hne
    simp [renderGallery, this]
  · simp [mkCard]

/-- Witness for C8 at a concrete one-record list. -/
theorem renderGallery_spec_witness :
    renderGallery [⟨"d1", "i1", "cat.png", 5, "u1"⟩]
      = .cards [⟨"i1", "d1", "i1", "cat.png", "u1", 5⟩]
    ∧ renderGallery [] = GalleryView.placeholder := by
  have h := renderGallery_spec [⟨"d1", "i1", "cat.png", 5, "u1"⟩] (by decide)
  exact ⟨h.2.1, h.1⟩

/-- Claim C9: after a successful blob upload `handleUpload` increments the
displayed total by one as soon as the persist call resolves — and the
persist call resolves normally on every input, its validation failures and
its backend write errors being swallowed internally — so an execution in
which the write throws increments the counter by one while creating no
Picture Record. -/
theorem counterWithoutRecord_spec (s : AppState)
    (fname freshId newDocId : String) (n1 n2 : Nat)
    (hun : (s.backend.blobs.filter (fun b => b.name == fname)).length = 0) :
    (∀ (st : BackendState) (iid iname : Option String) (cAt : Option Nat)
        (now : Nat) (docId : String) (fail : Bool),
      ∃ st', updatePictureDatabaseE st iid iname cAt now docId fail
        = .ok st')
    ∧ (∀ f3 : Bool,
        (handleUpload s (some fname) freshId newDocId n1 n2 false false
          f3).totalImageNumber = s.totalImageNumber + 1)
    ∧ handleUpload s (some fname) freshId newDocId n1 n2 false false true
        = { backend :=
              { s.backend with
                  blobs := s.backend.blobs ++ [⟨freshId, fname⟩] },
            totalImageNumber := s.totalImageNumber + 1 } := by
  have hup : uploadPicture s.backend fname freshId false false
      = ({ s.backend with blobs := s.backend.blobs ++ [⟨freshId, fname⟩] },
          some freshId) := by
    simp [uploadPicture, hun]
  refine ⟨?_, ?_, ?_⟩
  · intro st iid iname cAt now docId fail
    cases hb : updatePictureDatabaseBody st iid iname cAt now docId fail with
    | ok st' => exact ⟨st', by simp [updatePictureDatabaseE, hb]⟩
    | error e => exact ⟨st, by simp [updatePictureDatabaseE, hb]⟩
  · intro f3
    simp [handleUpload, hup]
  · have hdb : updatePictureDatabase
        { s.backend with blobs := s.backend.blobs ++ [⟨freshId, fname⟩] }
        (some freshId) (some fname) (some n1) n2 newDocId true
        = { s.backend with blobs := s.backend.blobs ++ [⟨freshId, fname⟩] } := by
      by_cases hfut : n1 > n2 <;>
        simp [updatePictureDatabase, updatePictureDatabaseE,
          updatePictureDatabaseBody, hfut]
    simp [handleUpload, hup, hdb]

/-- Witness for C9: with an empty store and a throwing metadata write, the
total becomes 1 while the document collection stays empty. -/
theorem counterWithoutRecord_spec_witness :
    handleUpload ⟨⟨[], []⟩, 0⟩ (some "cat.png") "i1" "d1" 3 4 false false true
      = ⟨⟨[], [⟨"i1", "cat.png"⟩]⟩, 1⟩
    ∧ updatePictureDatabaseE ⟨[], []⟩ (some "i1") (some "cat.png") (some 3) 4
        "d1" true
      = .ok ⟨[], []⟩ := by
  have h := counterWithoutRecord_spec ⟨⟨[], []⟩, 0⟩ "cat.png" "i1" "d1" 3 4
    (by decide)
  refine ⟨h.2.2, ?_⟩
  obtain ⟨st', hst'⟩ := h.1 ⟨[], []⟩ (some "i1") (some "cat.png") (some 3) 4
    "d1" true
  rw [hst']
  have : st' = ⟨[], []⟩ := by
    have := hst'
    simp [updatePictureDatabaseE, updatePictureDatabaseBody] at this
    exact this.symm
  rw [this]

/-- Claim C10: the two presence validations disagree on the empty string —
`updatePictureDatabase`'s loose null check lets an empty `imageId` and
`imageName` through and writes a record, while `deletePicture`'s falsy
check treats an empty identifier as absent and aborts without deleting
anything. -/
theorem presenceCheckInconsistency_spec (st : BackendState) (c now : Nat)
    (newDocId : String) (d i : String) (hc : c ≤ now) :
    updatePictureDatabase st (some "") (some "") (some c) now newDocId false
      = { st with docs := st.docs ++ [⟨newDocId, "", "", c, fileViewUrl ""⟩] }
    ∧ (∀ f1 f2 : Bool, deletePicture st (some "") (some d) f1 f2 = st)
    ∧ (∀ f1 f2 : Bool, deletePicture st (some i) (some "") f1 f2 = st) := by
  refine ⟨?_, fun f1 f2 => ?_, fun f1 f2 => ?_⟩
  · simp [updatePictureDatabase, updatePictureDatabaseE,
      updatePictureDatabaseBody, Nat.not_lt.mpr hc]
  · simp [deletePicture, jsFalsy]
  · simp [deletePicture, jsFalsy]

/-- Witness for C10: an empty-string-identified record is written, while an
empty-string delete argument aborts the deletion of an existing record. -/
theorem presenceCheckInconsistency_spec_witness :
    updatePictureDatabase ⟨[], []⟩ (some "") (some "") (some 3) 4 "d1" false
      = ⟨[⟨"d1", "", "", 3, fileViewUrl ""⟩], []⟩
    ∧ deletePicture ⟨[⟨"d1", "i1", "cat.png", 5, "u1"⟩], [⟨"i1", "cat.png"⟩]⟩
        (some "") (some "d1") false false
      = ⟨[⟨"d1", "i1", "cat.png", 5, "u1"⟩], [⟨"i1", "cat.png"⟩]⟩ := by
  have h1 := presenceCheckInconsistency_spec ⟨[], []⟩ 3 4 "d1" "d1" "i1"
    (by decide)
  have h2 := presenceCheckInconsistency_spec
    ⟨[⟨"d1", "i1", "cat.png", 5, "u1"⟩], [⟨"i1", "cat.png"⟩]⟩ 3 4 "d1" "d1"
    "i1" (by decide)
  exact ⟨h1.1, h2.2.1 false false⟩
